import Mathlib

/-!
Verification of the conversation-flow state machine of `mcp_server.py`
(Internet Offer Flow Server).

The embedding models, straight from the source:
* the per-call session state (`SessionState`, the four tracked state keys
  `auth`, `flow`, `prepared_offer`, `last_submission`);
* the process-wide fallback registry `CONVERSATION_STATE` keyed by
  conversation id (`Registry`);
* the guard `_require_auth` with snapshot save/restore;
* the six public tools `authenticate_user`, `download_user_info`,
  `prepare_new_offer`, `submit_offer_to_external_service`,
  `get_flow_status`, `logout`.

Modelling conventions:
* the sqlite user table is a `List Customer` argument of each operation
  (it can change between calls through the admin HTTP surface);
* `uuid.uuid4()` draws are modelled by a strictly increasing draw counter
  feeding an injective rendering `uuidHex` — the property the source relies
  on (fresh draws never collide) is exactly what uuid4 provides;
* a sqlite error during the ledger insert is modelled by a per-call oracle
  `dbOk : Bool`;
* timestamps (`created_at`) and file paths (`db_path`) are environment
  output only, read by no claim, and are omitted from the records.
-/

namespace McpServer

/-- The per-conversation progress record stored under the `flow` key. -/
structure FlowState where
  authenticated : Bool
  user_info_downloaded : Bool
  offer_prepared : Bool
  submitted : Bool
deriving Repr, DecidableEq

/-- `_default_flow_state` from the source: every gate `False`. -/
def default_flow_state : FlowState :=
  { authenticated := false, user_info_downloaded := false
    offer_prepared := false, submitted := false }

/-- `_authenticated_flow_state` from the source: the default with
`authenticated := True`. -/
def authenticated_flow_state : FlowState :=
  { default_flow_state with authenticated := true }

/-- The auth record stored under the `auth` key by `authenticate_user`. -/
structure AuthState where
  authenticated : Bool
  customer_id : String
  name : String
  rodne_cislo_suffix : String
  phone_number : String
deriving Repr, DecidableEq

/-- A row of the `mock_users` table. -/
structure Customer where
  customer_id : String
  name : String
  rodne_cislo_suffix : String
  phone_number : String
  email : String
  current_plan_mbps : Nat
deriving Repr, DecidableEq

/-- The offer record built by `prepare_new_offer`. -/
structure Offer where
  offer_id : String
  customer_id : String
  current_plan_mbps : Nat
  offered_plan_mbps : Nat
  price_delta_czk : Nat
  description : String
  valid_until : String
deriving Repr, DecidableEq

/-- The external result stored under `last_submission`: either the sqlite
row receipt of `_write_request_to_db` (`request_id` present,
`saved_to_db := true`) or the synthetic `_mock_external_call` receipt. -/
structure Submission where
  request_id : Option String
  external_reference : String
  saved_to_db : Bool
  status : String
deriving Repr, DecidableEq

/-- A row of the `external_upgrade_requests` ledger table. -/
structure LedgerRow where
  request_id : String
  customer_id : String
  customer_name : String
  current_plan_mbps : Nat
  offered_plan_mbps : Nat
  status : String
  external_reference : String
deriving Repr, DecidableEq

/-- The call-scoped key/value container (`ctx` state): the four tracked
keys, each possibly absent. A registry snapshot has the same shape, since
`_save_conversation_snapshot` copies exactly the present keys. -/
structure SessionState where
  auth : Option AuthState
  flow : Option FlowState
  prepared_offer : Option Offer
  last_submission : Option Submission
deriving Repr, DecidableEq

/-- A session container with no tracked key set. -/
def SessionState.empty : SessionState :=
  { auth := none, flow := none, prepared_offer := none, last_submission := none }

/-- A snapshot dict with no entry is falsy in Python
(`if not snapshot: return False`). -/
def SessionState.isEmpty (s : SessionState) : Bool :=
  s.auth.isNone && s.flow.isNone && s.prepared_offer.isNone && s.last_submission.isNone

/-- `CONVERSATION_STATE`: conversation id to snapshot.  Modelled as an
association list; `regLookup` reads the most recent binding, matching dict
assignment semantics. -/
def Registry := List (String × SessionState)
deriving Repr, DecidableEq

/-- Dict read: first (most recent) binding wins. -/
def regLookup : Registry → String → Option SessionState
  | [], _ => none
  | (k, v) :: rest, c => if k = c then some v else regLookup rest c

/-- Dict assignment `CONVERSATION_STATE[cid] = snapshot`: the new binding
shadows any old one. -/
def regSet (reg : Registry) (cid : String) (snap : SessionState) : Registry :=
  (cid, snap) :: reg

/-- Dict removal `CONVERSATION_STATE.pop(cid, None)`. -/
def regErase (reg : Registry) (cid : String) : Registry :=
  reg.filter (fun p => p.1 != cid)

/-- Python `str.strip()` on the character list: drop unicode whitespace at
both ends. -/
def stripChars (l : List Char) : List Char :=
  ((l.dropWhile Char.isWhitespace).reverse.dropWhile Char.isWhitespace).reverse

/-- Python `conversation_id.strip()`. -/
def strStrip (s : String) : String := String.mk (stripChars s.data)

/-- `_normalize_conversation_id`: `None` stays absent; otherwise strip;
an all-whitespace id is treated as absent. -/
def normalize_conversation_id : Option String → Option String
  | none => none
  | some s => let t := strStrip s; if t = "" then none else some t

/-- `_normalize_suffix` / `_normalize_phone`: keep only digit characters. -/
def normalize_suffix (s : String) : String :=
  String.mk (s.data.filter Char.isDigit)

/-- Modelled uuid supply: `uuid.uuid4().hex` truncations are random,
collision-free draws; the model renders draw `n` as `n` repetitions of the
hex digit `f`, an injective rendering that keeps distinct draws distinct. -/
def uuidHex (n : Nat) : String := String.mk (List.replicate n 'f')

/-- `_new_conversation_id`: `conv-` followed by a fresh uuid draw. -/
def new_conversation_id (n : Nat) : String := String.mk ("conv-".data ++ (uuidHex n).data)

/-- The `offer-` id minted by `prepare_new_offer`. -/
def newOfferId (n : Nat) : String := String.mk ("offer-".data ++ (uuidHex n).data)

/-- The `request_id` minted by `_write_request_to_db`. -/
def newRequestId (n : Nat) : String := String.mk ("req-".data ++ (uuidHex n).data)

/-- The `EXT-` reference minted by `_write_request_to_db`. -/
def newExtReference (n : Nat) : String := String.mk ("EXT-".data ++ (uuidHex n).data)

/-- The `MOCK-` reference minted by `_mock_external_call`. -/
def newMockReference (n : Nat) : String := String.mk ("MOCK-".data ++ (uuidHex n).data)

/-- `_get_user_by_suffix`: the unique `mock_users` row with this
`rodne_cislo_suffix` (first match in the modelled table). -/
def get_user_by_suffix (users : List Customer) (s : String) : Option Customer :=
  users.find? (fun u => u.rodne_cislo_suffix = s)

/-- `_get_user_by_customer_id`. -/
def get_user_by_customer_id (users : List Customer) (c : String) : Option Customer :=
  users.find? (fun u => u.customer_id = c)

/-- Process-wide server state: `CONVERSATION_STATE`, the uuid draw counter
of the model, and the `external_upgrade_requests` ledger table. -/
structure Srv where
  registry : Registry
  counter : Nat
  ledger : List LedgerRow
deriving Repr, DecidableEq

/-- The error taxonomy: each `ValueError` / `RuntimeError` message raised by
the flow tools. -/
inductive FlowError where
  | unauthorized
  | invalidAuthState
  | customerGone
  | downloadRequired
  | offerRequired
  | missingOffer
  | persistenceError
deriving Repr, DecidableEq

/-- The exact message text each error carries in the source. -/
def FlowError.message : FlowError → String
  | .unauthorized =>
      "Unauthorized. First call authenticate_user(rodne_cislo_suffix=...) and keep returned conversation_id for next tool calls."
  | .invalidAuthState => "Invalid auth state. Restart authentication."
  | .customerGone => "Authenticated customer no longer exists. Run authenticate_user again."
  | .downloadRequired => "Flow error: call download_user_info before prepare_new_offer."
  | .offerRequired => "Flow error: call prepare_new_offer before submission."
  | .missingOffer => "No prepared offer found in session state."
  | .persistenceError => "DB write failed."

/-- `_save_conversation_snapshot`: no-op without a conversation id;
otherwise store a wholesale copy of the present tracked entries, replacing
any earlier snapshot for that id. -/
def save_conversation_snapshot (reg : Registry) (cid : Option String) (ss : SessionState) :
    Registry :=
  match cid with
  | none => reg
  | some c => if c = "" then reg else regSet reg c ss

/-- Write the entries present in a snapshot back into the live container;
keys the snapshot lacks keep their live value. -/
def restoreInto (snap live : SessionState) : SessionState :=
  { auth := snap.auth.orElse fun _ => live.auth
    flow := snap.flow.orElse fun _ => live.flow
    prepared_offer := snap.prepared_offer.orElse fun _ => live.prepared_offer
    last_submission := snap.last_submission.orElse fun _ => live.last_submission }

/-- `_restore_conversation_snapshot`: look up the snapshot for the id and
copy each stored entry back into the session; `false` when there is no id,
no snapshot, or an empty snapshot. -/
def restore_conversation_snapshot (reg : Registry) (cid : Option String) (ss : SessionState) :
    SessionState × Bool :=
  match cid with
  | none => (ss, false)
  | some c =>
    if c = "" then (ss, false)
    else
      match regLookup reg c with
      | none => (ss, false)
      | some snap => if snap.isEmpty then (ss, false) else (restoreInto snap ss, true)

/-- `_require_customer`: re-resolve the authenticated `customer_id` against
the live user table. -/
def require_customer (users : List Customer) (auth : AuthState) : Except FlowError Customer :=
  if auth.customer_id = "" then .error .invalidAuthState
  else
    match get_user_by_customer_id users auth.customer_id with
    | none => .error .customerGone
    | some c => .ok c

/-- Truthiness of the stored auth record
(`not auth_state or not auth_state.get("authenticated")`). -/
def authMissing : Option AuthState → Bool
  | none => true
  | some a => !a.authenticated

/-- The re-read and final check of `_require_auth`: pass with the stored
auth record, or fail with `Unauthorized`. -/
def authVerdict (ncid : Option String) (ss1 : SessionState) :
    SessionState × Except FlowError (AuthState × Option String) :=
  match ss1.auth with
  | some a => if a.authenticated then (ss1, .ok (a, ncid)) else (ss1, .error .unauthorized)
  | none => (ss1, .error .unauthorized)

/-- `_require_auth`: normalize the conversation id, attempt registry
recovery when the live auth record is absent or unauthenticated, and fail
with `Unauthorized` when it still is.  Returns the possibly rehydrated
session alongside the guard verdict. -/
def require_auth (reg : Registry) (ss : SessionState) (conversation_id : Option String) :
    SessionState × Except FlowError (AuthState × Option String) :=
  let ncid := normalize_conversation_id conversation_id
  let ss1 :=
    if authMissing ss.auth && ncid.isSome then (restore_conversation_snapshot reg ncid ss).1
    else ss
  authVerdict ncid ss1

/-- Result of `authenticate_user`: a normal negative result on a bad
credential, or the returned customer identity and conversation id. -/
inductive AuthResult where
  | rejected (reason : String)
  | ok (customer_id name rodne_cislo_suffix conversation_id : String)
deriving Repr, DecidableEq

/-- `authenticate_user`: resolve the digit-normalized suffix in the user
table, mint or accept a conversation id, store the auth record and a fresh
authenticated flow, and snapshot. -/
def authenticate_user (users : List Customer) (srv : Srv) (ss : SessionState)
    (rodne_cislo_suffix : String) (conversation_id : Option String) :
    Srv × SessionState × AuthResult :=
  let suffix := normalize_suffix rodne_cislo_suffix
  if suffix.length < 4 || suffix.length > 10 then
    (srv, ss, .rejected "rodne_cislo_suffix must contain 4-10 digits.")
  else
    match get_user_by_suffix users suffix with
    | none => (srv, ss, .rejected "Unknown rodne_cislo_suffix.")
    | some customer =>
      let (resolved, counter1) :=
        match normalize_conversation_id conversation_id with
        | some c => (c, srv.counter)
        | none => (new_conversation_id srv.counter, srv.counter + 1)
      let ss1 : SessionState :=
        { ss with
          auth := some
            { authenticated := true
              customer_id := customer.customer_id
              name := customer.name
              rodne_cislo_suffix := customer.rodne_cislo_suffix
              phone_number := customer.phone_number }
          flow := some authenticated_flow_state }
      let reg1 := save_conversation_snapshot srv.registry (some resolved) ss1
      ({ srv with registry := reg1, counter := counter1 }, ss1,
        .ok customer.customer_id customer.name customer.rodne_cislo_suffix resolved)

/-- The profile payload returned by `download_user_info`. -/
structure UserInfoResult where
  customer_id : String
  name : String
  phone_number : String
  email : String
  current_plan_mbps : Nat
  conversation_id : Option String
deriving Repr, DecidableEq

/-- `download_user_info`: guard, re-resolve the customer, mark
`user_info_downloaded`, snapshot, and return the profile. -/
def download_user_info (users : List Customer) (srv : Srv) (ss : SessionState)
    (conversation_id : Option String) :
    Srv × SessionState × Except FlowError UserInfoResult :=
  match require_auth srv.registry ss conversation_id with
  | (ss1, .error e) => (srv, ss1, .error e)
  | (ss1, .ok (auth, rcid)) =>
    match require_customer users auth with
    | .error e => (srv, ss1, .error e)
    | .ok customer =>
      let flow := ss1.flow.getD authenticated_flow_state
      let flow1 := { flow with user_info_downloaded := true }
      let ss2 := { ss1 with flow := some flow1 }
      let reg1 := save_conversation_snapshot srv.registry rcid ss2
      ({ srv with registry := reg1 }, ss2,
        .ok
          { customer_id := customer.customer_id
            name := customer.name
            phone_number := customer.phone_number
            email := customer.email
            current_plan_mbps := customer.current_plan_mbps
            conversation_id := rcid })

/-- The payload returned by `prepare_new_offer`. -/
structure OfferResult where
  offer : Offer
  conversation_id : Option String
deriving Repr, DecidableEq

/-- `prepare_new_offer`: guard, re-resolve the customer, require
`user_info_downloaded`, mint a fresh fixed 250 Mbps offer, store it, mark
`offer_prepared`, snapshot. -/
def prepare_new_offer (users : List Customer) (srv : Srv) (ss : SessionState)
    (conversation_id : Option String) :
    Srv × SessionState × Except FlowError OfferResult :=
  match require_auth srv.registry ss conversation_id with
  | (ss1, .error e) => (srv, ss1, .error e)
  | (ss1, .ok (auth, rcid)) =>
    match require_customer users auth with
    | .error e => (srv, ss1, .error e)
    | .ok customer =>
      let flow := ss1.flow.getD authenticated_flow_state
      if !flow.user_info_downloaded then (srv, ss1, .error .downloadRequired)
      else
        let offer : Offer :=
          { offer_id := newOfferId srv.counter
            customer_id := customer.customer_id
            current_plan_mbps := customer.current_plan_mbps
            offered_plan_mbps := 250
            price_delta_czk := 0
            description := "Upgrade internet speed from 100 Mbps to 250 Mbps."
            valid_until := "2026-12-31" }
        let flow1 := { flow with offer_prepared := true }
        let ss2 := { ss1 with prepared_offer := some offer, flow := some flow1 }
        let reg1 := save_conversation_snapshot srv.registry rcid ss2
        ({ srv with registry := reg1, counter := srv.counter + 1 }, ss2,
          .ok { offer := offer, conversation_id := rcid })

/-- `_write_request_to_db`: mint `request_id` and `external_reference`, then
attempt the sqlite insert; the `dbOk` oracle stands for sqlite succeeding.
Both ids are minted before the insert, so the draws are consumed either
way. -/
def write_request_to_db (counter : Nat) (ledger : List LedgerRow) (dbOk : Bool)
    (customer : Customer) (offer : Offer) :
    Nat × List LedgerRow × Option Submission :=
  let request_id := newRequestId counter
  let external_reference := newExtReference (counter + 1)
  if dbOk then
    let row : LedgerRow :=
      { request_id := request_id
        customer_id := customer.customer_id
        customer_name := customer.name
        current_plan_mbps := customer.current_plan_mbps
        offered_plan_mbps := offer.offered_plan_mbps
        status := "accepted"
        external_reference := external_reference }
    (counter + 2, ledger ++ [row],
      some
        { request_id := some request_id
          external_reference := external_reference
          saved_to_db := true
          status := "accepted" })
  else (counter + 2, ledger, none)

/-- `_mock_external_call`: a synthetic non-persisted acknowledgement. -/
def mock_external_call (counter : Nat) : Nat × Submission :=
  (counter + 1,
    { request_id := none
      external_reference := newMockReference counter
      saved_to_db := false
      status := "accepted" })

/-- The payload returned by `submit_offer_to_external_service`. -/
inductive SubmitResult where
  | cancelled (conversation_id : Option String)
  | submitted (customer_id offer_id : String) (conversation_id : Option String)
      (external_result : Submission)
deriving Repr, DecidableEq

/-- `submit_offer_to_external_service`: guard, re-resolve the customer,
require `offer_prepared`; a declined offer returns `cancelled` untouched;
an accepted one needs the stored offer, writes the ledger (or the mock
call), then marks `submitted`, stores `last_submission` and snapshots.  A
failed ledger write surfaces as `persistenceError` before any state
update. -/
def submit_offer_to_external_service (users : List Customer) (srv : Srv) (ss : SessionState)
    (accept_offer persist_to_db dbOk : Bool) (conversation_id : Option String) :
    Srv × SessionState × Except FlowError SubmitResult :=
  match require_auth srv.registry ss conversation_id with
  | (ss1, .error e) => (srv, ss1, .error e)
  | (ss1, .ok (auth, rcid)) =>
    match require_customer users auth with
    | .error e => (srv, ss1, .error e)
    | .ok customer =>
      let flow := ss1.flow.getD authenticated_flow_state
      if !flow.offer_prepared then (srv, ss1, .error .offerRequired)
      else if !accept_offer then (srv, ss1, .ok (.cancelled rcid))
      else
        match ss1.prepared_offer with
        | none => (srv, ss1, .error .missingOffer)
        | some offer =>
          let (counter1, ledger1, ext?) :=
            if persist_to_db then write_request_to_db srv.counter srv.ledger dbOk customer offer
            else
              let (c1, sub) := mock_external_call srv.counter
              (c1, srv.ledger, some sub)
          match ext? with
          | none =>
            ({ srv with counter := counter1, ledger := ledger1 }, ss1, .error .persistenceError)
          | some external_result =>
            let flow1 := { flow with submitted := true }
            let ss2 := { ss1 with flow := some flow1, last_submission := some external_result }
            let reg1 := save_conversation_snapshot srv.registry rcid ss2
            ({ srv with registry := reg1, counter := counter1, ledger := ledger1 }, ss2,
              .ok (.submitted customer.customer_id offer.offer_id rcid external_result))

/-- The payload returned by `get_flow_status`. -/
structure StatusResult where
  authenticated : Bool
  conversation_id : Option String
  flow : FlowState
deriving Repr, DecidableEq

/-- `get_flow_status`: read `flow` and `auth`; when the live auth record is
missing or unauthenticated and an id was given, attempt recovery and
re-read on success.  Never fails and never writes the registry. -/
def get_flow_status (srv : Srv) (ss : SessionState) (conversation_id : Option String) :
    SessionState × StatusResult :=
  let rcid := normalize_conversation_id conversation_id
  let flow0 := ss.flow
  let auth0 := ss.auth
  let (ss1, restored) :=
    if authMissing ss.auth && rcid.isSome then restore_conversation_snapshot srv.registry rcid ss
    else (ss, false)
  let flow1 := if restored then ss1.flow else flow0
  let auth1 := if restored then ss1.auth else auth0
  (ss1,
    { authenticated := !authMissing auth1
      conversation_id := rcid
      flow := flow1.getD default_flow_state })

/-- The payload returned by `logout`. -/
structure LogoutResult where
  status : String
  conversation_id : Option String
deriving Repr, DecidableEq

/-- `logout`: delete the four tracked keys from the session and drop the
registry snapshot for the normalized id, when one was given. -/
def logout (srv : Srv) (_ss : SessionState) (conversation_id : Option String) :
    Srv × SessionState × LogoutResult :=
  let ss1 := SessionState.empty
  let rcid := normalize_conversation_id conversation_id
  let reg1 :=
    match rcid with
    | some c => regErase srv.registry c
    | none => srv.registry
  ({ srv with registry := reg1 }, ss1, { status := "ok", conversation_id := rcid })

/-! ### Reachability through the public operations -/

/-- State transition of `authenticate_user` (server and session parts). -/
def stepAuth (users : List Customer) (suffix : String) (cid : Option String)
    (p : Srv × SessionState) : Srv × SessionState :=
  let r := authenticate_user users p.1 p.2 suffix cid
  (r.1, r.2.1)

/-- State transition of `download_user_info`. -/
def stepDownload (users : List Customer) (cid : Option String)
    (p : Srv × SessionState) : Srv × SessionState :=
  let r := download_user_info users p.1 p.2 cid
  (r.1, r.2.1)

/-- State transition of `prepare_new_offer`. -/
def stepPrepare (users : List Customer) (cid : Option String)
    (p : Srv × SessionState) : Srv × SessionState :=
  let r := prepare_new_offer users p.1 p.2 cid
  (r.1, r.2.1)

/-- State transition of `submit_offer_to_external_service`. -/
def stepSubmit (users : List Customer) (accept persist dbOk : Bool) (cid : Option String)
    (p : Srv × SessionState) : Srv × SessionState :=
  let r := submit_offer_to_external_service users p.1 p.2 accept persist dbOk cid
  (r.1, r.2.1)

/-- State transition of `get_flow_status` (the registry is read-only here). -/
def stepStatus (cid : Option String) (p : Srv × SessionState) : Srv × SessionState :=
  (p.1, (get_flow_status p.1 p.2 cid).1)

/-- State transition of `logout`. -/
def stepLogout (cid : Option String) (p : Srv × SessionState) : Srv × SessionState :=
  let r := logout p.1 p.2 cid
  (r.1, r.2.1)

/-- The empty start state: fresh process, fresh call-scoped container. -/
def initState : Srv × SessionState :=
  ({ registry := [], counter := 0, ledger := [] }, SessionState.empty)

/-- States reachable from the start through the six public operations, with
the user table free to differ between calls (admin HTTP surface). -/
inductive Reachable : Srv × SessionState → Prop where
  | init : Reachable initState
  | auth (users : List Customer) (suffix : String) (cid : Option String) {p : Srv × SessionState} :
      Reachable p → Reachable (stepAuth users suffix cid p)
  | download (users : List Customer) (cid : Option String) {p : Srv × SessionState} :
      Reachable p → Reachable (stepDownload users cid p)
  | prepare (users : List Customer) (cid : Option String) {p : Srv × SessionState} :
      Reachable p → Reachable (stepPrepare users cid p)
  | submit (users : List Customer) (accept persist dbOk : Bool) (cid : Option String)
      {p : Srv × SessionState} :
      Reachable p → Reachable (stepSubmit users accept persist dbOk cid p)
  | status (cid : Option String) {p : Srv × SessionState} :
      Reachable p → Reachable (stepStatus cid p)
  | signOut (cid : Option String) {p : Srv × SessionState} :
      Reachable p → Reachable (stepLogout cid p)

/-! ### Basic lemmas about the registry and snapshot plumbing -/

theorem regLookup_regSet_self (reg : Registry) (c : String) (s : SessionState) :
    regLookup (regSet reg c s) c = some s := by
  simp [regLookup, regSet]

theorem regLookup_regSet_ne (reg : Registry) (c c' : String) (s : SessionState)
    (h : c ≠ c') : regLookup (regSet reg c s) c' = regLookup reg c' := by
  simp [regLookup, regSet, h]

theorem regLookup_regErase (reg : Registry) (c c' : String) :
    regLookup (regErase reg c) c' = if c' = c then none else regLookup reg c' := by
  induction reg with
  | nil => simp [regLookup, regErase]
  | cons hd tl ih =>
    obtain ⟨k, v⟩ := hd
    by_cases hk : k = c
    · rw [show regErase ((k, v) :: tl) c = regErase tl c by
        simp [regErase, List.filter_cons, bne_iff_ne, hk]]
      rw [ih]
      by_cases hc : c' = c
      · simp [hc]
      · have hkc : ¬k = c' := fun h => hc (by rw [← h, hk])
        simp [regLookup, hc, hkc]
    · rw [show regErase ((k, v) :: tl) c = (k, v) :: regErase tl c by
        simp [regErase, List.filter_cons, bne_iff_ne, hk]]
      by_cases hc : k = c'
      · have hcc : ¬c' = c := fun h => hk (by rw [hc, h])
        simp [regLookup, hc, hcc]
      · simp [regLookup, hc, ih]

theorem regLookup_regErase_self (reg : Registry) (c : String) :
    regLookup (regErase reg c) c = none := by
  simp [regLookup_regErase]

theorem normalize_conversation_id_ne_empty {o : Option String} {c : String}
    (h : normalize_conversation_id o = some c) : c ≠ "" := by
  cases o with
  | none => simp [normalize_conversation_id] at h
  | some s =>
    simp only [normalize_conversation_id] at h
    by_cases hs : strStrip s = ""
    · simp [hs] at h
    · simp [hs] at h
      exact h ▸ hs

theorem restoreInto_idem (snap ss : SessionState) :
    restoreInto snap (restoreInto snap ss) = restoreInto snap ss := by
  obtain ⟨a, f, p, l⟩ := snap
  cases a <;> cases f <;> cases p <;> cases l <;> rfl

theorem restoreInto_empty (snap : SessionState) :
    restoreInto snap SessionState.empty = snap := by
  obtain ⟨a, f, p, l⟩ := snap
  cases a <;> cases f <;> cases p <;> cases l <;> rfl

/-- Everything `_restore_conversation_snapshot` can do: either a silent
no-op, or a full rehydration from a non-empty snapshot found under the
given id. -/
theorem restore_spec (reg : Registry) (cid : Option String) (ss : SessionState) :
    restore_conversation_snapshot reg cid ss = (ss, false) ∨
    ∃ c snap, cid = some c ∧ c ≠ "" ∧ regLookup reg c = some snap ∧
      snap.isEmpty = false ∧
      restore_conversation_snapshot reg cid ss = (restoreInto snap ss, true) := by
  cases cid with
  | none => exact Or.inl rfl
  | some c =>
    by_cases hc : c = ""
    · subst hc; exact Or.inl (by simp [restore_conversation_snapshot])
    · cases hl : regLookup reg c with
      | none => exact Or.inl (by simp [restore_conversation_snapshot, hc, hl])
      | some snap =>
        by_cases he : snap.isEmpty
        · exact Or.inl (by simp [restore_conversation_snapshot, hc, hl, he])
        · refine Or.inr ⟨c, snap, rfl, hc, hl, by simpa using he, ?_⟩
          simp [restore_conversation_snapshot, hc, hl, he]

/-! ### Lemmas about the guard -/

theorem authVerdict_fst (n : Option String) (s : SessionState) : (authVerdict n s).1 = s := by
  unfold authVerdict
  cases hs : s.auth with
  | none => rfl
  | some a => cases ha : a.authenticated <;> simp [ha]

/-- Full case analysis of the post-recovery check: fail with `Unauthorized`
exactly when the (re-read) auth record is absent or unauthenticated. -/
theorem authVerdict_characterize (n : Option String) (s : SessionState) :
    (authMissing s.auth = true ∧ (authVerdict n s).2 = .error .unauthorized) ∨
    (∃ a, s.auth = some a ∧ a.authenticated = true ∧ (authVerdict n s).2 = .ok (a, n)) := by
  unfold authVerdict
  cases hs : s.auth with
  | none => exact Or.inl ⟨by simp [authMissing, hs], rfl⟩
  | some a =>
    cases ha : a.authenticated
    · exact Or.inl ⟨by simp [authMissing, hs, ha], by simp [ha]⟩
    · exact Or.inr ⟨a, rfl, ha, by simp [ha]⟩

theorem require_auth_fst (reg : Registry) (ss : SessionState) (cid : Option String) :
    (require_auth reg ss cid).1 =
      if authMissing ss.auth && (normalize_conversation_id cid).isSome then
        (restore_conversation_snapshot reg (normalize_conversation_id cid) ss).1
      else ss := by
  simp only [require_auth, authVerdict_fst]

theorem require_auth_snd (reg : Registry) (ss : SessionState) (cid : Option String) :
    (require_auth reg ss cid).2 =
      (authVerdict (normalize_conversation_id cid) (require_auth reg ss cid).1).2 := by
  simp only [require_auth, authVerdict_fst]

/-- When the live auth record is present and authenticated, the guard is a
no-op pass. -/
theorem require_auth_pass {ss : SessionState} {a : AuthState} (reg : Registry)
    (cid : Option String) (ha : ss.auth = some a) (hauth : a.authenticated = true) :
    require_auth reg ss cid = (ss, .ok (a, normalize_conversation_id cid)) := by
  have hmiss : authMissing ss.auth = false := by rw [ha]; simp [authMissing, hauth]
  unfold require_auth authVerdict
  rw [hmiss]
  simp [ha, hauth]

theorem require_auth_ok {reg : Registry} {ss ss1 : SessionState} {cid rcid : Option String}
    {a : AuthState} (h : require_auth reg ss cid = (ss1, .ok (a, rcid))) :
    (require_auth reg ss cid).1 = ss1 ∧ ss1.auth = some a ∧ a.authenticated = true ∧
      rcid = normalize_conversation_id cid := by
  have h1 : (require_auth reg ss cid).1 = ss1 := by rw [h]
  have h2 : (require_auth reg ss cid).2 = .ok (a, rcid) := by rw [h]
  rw [require_auth_snd, h1] at h2
  rcases authVerdict_characterize (normalize_conversation_id cid) ss1 with ⟨_, he⟩ | ⟨a', ha', hau', hok'⟩
  · rw [he] at h2; cases h2
  · rw [hok'] at h2
    obtain ⟨rfl, rfl⟩ : a' = a ∧ normalize_conversation_id cid = rcid := by
      simpa using h2
    exact ⟨h1, ha', hau', rfl⟩

theorem require_auth_err {reg : Registry} {ss ss1 : SessionState} {cid : Option String}
    {e : FlowError} (h : require_auth reg ss cid = (ss1, .error e)) :
    e = .unauthorized ∧ (require_auth reg ss cid).1 = ss1 ∧ authMissing ss1.auth = true := by
  have h1 : (require_auth reg ss cid).1 = ss1 := by rw [h]
  have h2 : (require_auth reg ss cid).2 = .error e := by rw [h]
  rw [require_auth_snd, h1] at h2
  rcases authVerdict_characterize (normalize_conversation_id cid) ss1 with ⟨hm, he⟩ | ⟨a', _, _, hok'⟩
  · rw [he] at h2
    obtain rfl : FlowError.unauthorized = e := by simpa using h2
    exact ⟨rfl, h1, hm⟩
  · rw [hok'] at h2; cases h2

/-! ### The flow invariant -/

/-- The claimed implication chain on a flow record. -/
def FlowState.chain (f : FlowState) : Prop :=
  (f.user_info_downloaded = true → f.authenticated = true) ∧
  (f.offer_prepared = true → f.user_info_downloaded = true) ∧
  (f.submitted = true → f.offer_prepared = true)

instance (f : FlowState) : Decidable f.chain := by
  unfold FlowState.chain; infer_instance

/-- A stored auth record is always an authenticated one. -/
def authOkOpt : Option AuthState → Prop
  | none => True
  | some a => a.authenticated = true

/-- A stored flow record carries `authenticated = true` and the chain. -/
def flowOkOpt : Option FlowState → Prop
  | none => True
  | some f => f.authenticated = true ∧ f.chain

/-- Well-formedness of one session container (live or snapshot). -/
def ssOk (ss : SessionState) : Prop :=
  authOkOpt ss.auth ∧ flowOkOpt ss.flow ∧ (ss.flow.isSome = true → ss.auth.isSome = true)

/-- Every snapshot in the registry is well-formed. -/
def regOk (reg : Registry) : Prop :=
  ∀ c snap, regLookup reg c = some snap → ssOk snap

/-- The reachable-state invariant. -/
def Inv (p : Srv × SessionState) : Prop := ssOk p.2 ∧ regOk p.1.registry

theorem ssOk_empty : ssOk SessionState.empty :=
  ⟨trivial, trivial, by simp [SessionState.empty]⟩

theorem regOk_nil : regOk [] := by
  intro c snap h
  simp [regLookup] at h

theorem ssOk_restoreInto {snap ss : SessionState} (h1 : ssOk snap) (h2 : ssOk ss) :
    ssOk (restoreInto snap ss) := by
  obtain ⟨ha1, hf1, hfa1⟩ := h1
  obtain ⟨ha2, hf2, hfa2⟩ := h2
  refine ⟨?_, ?_, ?_⟩
  · cases hs : snap.auth with
    | some a => simpa [restoreInto, hs, Option.orElse, authOkOpt] using (hs ▸ ha1 : authOkOpt (some a))
    | none => simpa [restoreInto, hs, Option.orElse] using ha2
  · cases hs : snap.flow with
    | some f => simpa [restoreInto, hs, Option.orElse, flowOkOpt] using (hs ▸ hf1 : flowOkOpt (some f))
    | none => simpa [restoreInto, hs, Option.orElse] using hf2
  · intro hsome
    cases hs : snap.flow with
    | some f =>
      have : snap.auth.isSome = true := hfa1 (by simp [hs])
      cases hsa : snap.auth with
      | none => rw [hsa] at this; cases this
      | some a => simp [restoreInto, hsa, Option.orElse]
    | none =>
      rw [show (restoreInto snap ss).flow = snap.flow.orElse fun _ => ss.flow from rfl, hs] at hsome
      have : ss.auth.isSome = true := hfa2 (by simpa [Option.orElse] using hsome)
      cases hsa : snap.auth with
      | none =>
        cases hss : ss.auth with
        | none => rw [hss] at this; cases this
        | some a => simp [restoreInto, hsa, hss, Option.orElse]
      | some a => simp [restoreInto, hsa, Option.orElse]

theorem ssOk_restore {reg : Registry} {cid : Option String} {ss : SessionState}
    (hr : regOk reg) (hs : ssOk ss) :
    ssOk (restore_conversation_snapshot reg cid ss).1 := by
  rcases restore_spec reg cid ss with h | ⟨c, snap, _, _, hl, _, h⟩
  · rw [h]; exact hs
  · rw [h]; exact ssOk_restoreInto (hr _ _ hl) hs

theorem ssOk_require_auth {reg : Registry} {ss : SessionState} {cid : Option String}
    (hr : regOk reg) (hs : ssOk ss) : ssOk (require_auth reg ss cid).1 := by
  rw [require_auth_fst]
  by_cases h : (authMissing ss.auth && (normalize_conversation_id cid).isSome) = true
  · rw [if_pos h]; exact ssOk_restore hr hs
  · rw [if_neg h]; exact hs

theorem regOk_save {reg : Registry} {cid : Option String} {ss : SessionState}
    (hr : regOk reg) (hs : ssOk ss) : regOk (save_conversation_snapshot reg cid ss) := by
  cases cid with
  | none => exact hr
  | some c =>
    by_cases hc : c = ""
    · simpa [save_conversation_snapshot, hc] using hr
    · intro c' snap hl
      rw [save_conversation_snapshot] at hl
      rw [if_neg hc] at hl
      by_cases hcc : c = c'
      · subst hcc
        rw [regLookup_regSet_self] at hl
        cases hl
        exact hs
      · rw [regLookup_regSet_ne _ _ _ _ hcc] at hl
        exact hr _ _ hl

theorem regOk_erase {reg : Registry} (hr : regOk reg) (c : String) :
    regOk (regErase reg c) := by
  intro c' snap hl
  rw [regLookup_regErase] at hl
  by_cases hcc : c' = c
  · rw [if_pos hcc] at hl; cases hl
  · rw [if_neg hcc] at hl; exact hr _ _ hl

/-- The working flow record of a protected operation
(`ctx.get_state("flow") or _authenticated_flow_state()`) is well-formed. -/
theorem flowOk_getD {fo : Option FlowState} (h : flowOkOpt fo) :
    (fo.getD authenticated_flow_state).authenticated = true ∧
      (fo.getD authenticated_flow_state).chain := by
  cases fo with
  | none => exact ⟨rfl, by decide⟩
  | some f => simpa [flowOkOpt] using h

theorem flowOk_setDownloaded {f : FlowState} (ha : f.authenticated = true) (hc : f.chain) :
    flowOkOpt (some { f with user_info_downloaded := true }) := by
  obtain ⟨-, -, h3⟩ := hc
  exact ⟨ha, fun _ => ha, fun _ => rfl, h3⟩

theorem flowOk_setPrepared {f : FlowState} (ha : f.authenticated = true) (hc : f.chain)
    (hd : f.user_info_downloaded = true) :
    flowOkOpt (some { f with offer_prepared := true }) := by
  obtain ⟨h1, -, -⟩ := hc
  exact ⟨ha, h1, fun _ => hd, fun _ => rfl⟩

theorem flowOk_setSubmitted {f : FlowState} (ha : f.authenticated = true) (hc : f.chain)
    (hp : f.offer_prepared = true) :
    flowOkOpt (some { f with submitted := true }) := by
  obtain ⟨h1, h2, -⟩ := hc
  exact ⟨ha, h1, h2, fun _ => hp⟩

/-! ### Invariant preservation along every public operation -/

theorem inv_stepAuth (users : List Customer) (suffix : String) (cid : Option String)
    {p : Srv × SessionState} (h : Inv p) : Inv (stepAuth users suffix cid p) := by
  obtain ⟨srv, ss⟩ := p
  obtain ⟨hss, hreg⟩ := h
  by_cases hlen :
      ((normalize_suffix suffix).length < 4 || (normalize_suffix suffix).length > 10) = true
  · refine ⟨?_, ?_⟩
    · simpa [stepAuth, authenticate_user, hlen] using hss
    · simpa [stepAuth, authenticate_user, hlen] using hreg
  · cases hu : get_user_by_suffix users (normalize_suffix suffix) with
    | none =>
      refine ⟨?_, ?_⟩
      · simpa [stepAuth, authenticate_user, hlen, hu] using hss
      · simpa [stepAuth, authenticate_user, hlen, hu] using hreg
    | some customer =>
      have hok : ssOk { ss with
          auth := some
            { authenticated := true
              customer_id := customer.customer_id
              name := customer.name
              rodne_cislo_suffix := customer.rodne_cislo_suffix
              phone_number := customer.phone_number }
          flow := some authenticated_flow_state } := by
        exact ⟨rfl, ⟨rfl, by decide⟩, fun _ => rfl⟩
      cases hn : normalize_conversation_id cid with
      | some c =>
        refine ⟨?_, ?_⟩
        · simpa [stepAuth, authenticate_user, hlen, hu, hn] using hok
        · simpa [stepAuth, authenticate_user, hlen, hu, hn] using
            @regOk_save _ (some c) _ hreg hok
      | none =>
        refine ⟨?_, ?_⟩
        · simpa [stepAuth, authenticate_user, hlen, hu, hn] using hok
        · simpa [stepAuth, authenticate_user, hlen, hu, hn] using
            @regOk_save _ (some (new_conversation_id srv.counter)) _ hreg hok

theorem inv_stepDownload (users : List Customer) (cid : Option String)
    {p : Srv × SessionState} (h : Inv p) : Inv (stepDownload users cid p) := by
  obtain ⟨srv, ss⟩ := p
  obtain ⟨hss, hreg⟩ := h
  unfold stepDownload download_user_info
  rcases hra : require_auth srv.registry ss cid with ⟨ss1, r⟩
  have hss1 : ssOk ss1 := by
    have := @ssOk_require_auth _ _ cid hreg hss
    rwa [hra] at this
  cases r with
  | error e => simpa [hra] using (⟨hss1, hreg⟩ : Inv (srv, ss1))
  | ok ar =>
    obtain ⟨auth, rcid⟩ := ar
    obtain ⟨-, hauth, hauthTrue, -⟩ := require_auth_ok hra
    cases hrc : require_customer users auth with
    | error e => simpa [hra, hrc] using (⟨hss1, hreg⟩ : Inv (srv, ss1))
    | ok customer =>
      obtain ⟨hfa, hfc⟩ := flowOk_getD hss1.2.1
      have hok : ssOk { ss1 with
          flow := some { ss1.flow.getD authenticated_flow_state with
                          user_info_downloaded := true } } :=
        ⟨hss1.1, flowOk_setDownloaded hfa hfc, fun _ => by simp [hauth]⟩
      exact ⟨by simpa [hra, hrc] using hok, by simpa [hra, hrc] using regOk_save hreg hok⟩

theorem inv_stepPrepare (users : List Customer) (cid : Option String)
    {p : Srv × SessionState} (h : Inv p) : Inv (stepPrepare users cid p) := by
  obtain ⟨srv, ss⟩ := p
  obtain ⟨hss, hreg⟩ := h
  unfold stepPrepare prepare_new_offer
  rcases hra : require_auth srv.registry ss cid with ⟨ss1, r⟩
  have hss1 : ssOk ss1 := by
    have := @ssOk_require_auth _ _ cid hreg hss
    rwa [hra] at this
  cases r with
  | error e => simpa [hra] using (⟨hss1, hreg⟩ : Inv (srv, ss1))
  | ok ar =>
    obtain ⟨auth, rcid⟩ := ar
    obtain ⟨-, hauth, hauthTrue, -⟩ := require_auth_ok hra
    cases hrc : require_customer users auth with
    | error e => simpa [hra, hrc] using (⟨hss1, hreg⟩ : Inv (srv, ss1))
    | ok customer =>
      obtain ⟨hfa, hfc⟩ := flowOk_getD hss1.2.1
      cases hd : (ss1.flow.getD authenticated_flow_state).user_info_downloaded with
      | false => simpa [hra, hrc, hd] using (⟨hss1, hreg⟩ : Inv (srv, ss1))
      | true =>
        have hok : ssOk { ss1 with
            prepared_offer := some
              { offer_id := newOfferId srv.counter
                customer_id := customer.customer_id
                current_plan_mbps := customer.current_plan_mbps
                offered_plan_mbps := 250
                price_delta_czk := 0
                description := "Upgrade internet speed from 100 Mbps to 250 Mbps."
                valid_until := "2026-12-31" }
            flow := some { ss1.flow.getD authenticated_flow_state with
                            offer_prepared := true } } :=
          ⟨hss1.1, flowOk_setPrepared hfa hfc hd, fun _ => by simp [hauth]⟩
        exact ⟨by simpa [hra, hrc, hd] using hok,
          by simpa [hra, hrc, hd] using regOk_save hreg hok⟩

theorem inv_stepSubmit (users : List Customer) (accept persist dbOk : Bool)
    (cid : Option String) {p : Srv × SessionState} (h : Inv p) :
    Inv (stepSubmit users accept persist dbOk cid p) := by
  obtain ⟨srv, ss⟩ := p
  obtain ⟨hss, hreg⟩ := h
  unfold stepSubmit submit_offer_to_external_service
  rcases hra : require_auth srv.registry ss cid with ⟨ss1, r⟩
  have hss1 : ssOk ss1 := by
    have := @ssOk_require_auth _ _ cid hreg hss
    rwa [hra] at this
  cases r with
  | error e => simpa [hra] using (⟨hss1, hreg⟩ : Inv (srv, ss1))
  | ok ar =>
    obtain ⟨auth, rcid⟩ := ar
    obtain ⟨-, hauth, hauthTrue, -⟩ := require_auth_ok hra
    cases hrc : require_customer users auth with
    | error e => simpa [hra, hrc] using (⟨hss1, hreg⟩ : Inv (srv, ss1))
    | ok customer =>
      obtain ⟨hfa, hfc⟩ := flowOk_getD hss1.2.1
      cases hp : (ss1.flow.getD authenticated_flow_state).offer_prepared with
      | false => simpa [hra, hrc, hp] using (⟨hss1, hreg⟩ : Inv (srv, ss1))
      | true =>
        cases hacc : accept with
        | false => simpa [hra, hrc, hp, hacc] using (⟨hss1, hreg⟩ : Inv (srv, ss1))
        | true =>
          cases ho : ss1.prepared_offer with
          | none => simpa [hra, hrc, hp, hacc, ho] using (⟨hss1, hreg⟩ : Inv (srv, ss1))
          | some offer =>
            rcases hw : (if persist then
                write_request_to_db srv.counter srv.ledger dbOk customer offer
              else
                let r := mock_external_call srv.counter
                (r.1, srv.ledger, some r.2)) with ⟨c1, l1, ext?⟩
            cases ext? with
            | none =>
              simpa [hra, hrc, hp, hacc, ho, hw] using (⟨hss1, hreg⟩ : Inv (srv, ss1))
            | some ext =>
              have hok : ssOk { ss1 with
                  flow := some { ss1.flow.getD authenticated_flow_state with
                                  submitted := true }
                  last_submission := some ext } :=
                ⟨hss1.1, flowOk_setSubmitted hfa hfc hp, fun _ => by simp [hauth]⟩
              exact ⟨by simpa [hra, hrc, hp, hacc, ho, hw] using hok,
                by simpa [hra, hrc, hp, hacc, ho, hw] using regOk_save hreg hok⟩

theorem get_flow_status_fst (srv : Srv) (ss : SessionState) (cid : Option String) :
    (get_flow_status srv ss cid).1 =
      if authMissing ss.auth && (normalize_conversation_id cid).isSome then
        (restore_conversation_snapshot srv.registry (normalize_conversation_id cid) ss).1
      else ss := by
  unfold get_flow_status
  rcases h : restore_conversation_snapshot srv.registry (normalize_conversation_id cid) ss
    with ⟨s, b⟩
  by_cases hc : (authMissing ss.auth && (normalize_conversation_id cid).isSome) = true
  · simp [hc, h]
  · simp [hc]

theorem inv_stepStatus (cid : Option String) {p : Srv × SessionState} (h : Inv p) :
    Inv (stepStatus cid p) := by
  obtain ⟨srv, ss⟩ := p
  obtain ⟨hss, hreg⟩ := h
  refine ⟨?_, hreg⟩
  show ssOk (get_flow_status srv ss cid).1
  rw [get_flow_status_fst]
  by_cases hc : (authMissing ss.auth && (normalize_conversation_id cid).isSome) = true
  · rw [if_pos hc]; exact ssOk_restore hreg hss
  · rw [if_neg hc]; exact hss

theorem inv_stepLogout (cid : Option String) {p : Srv × SessionState} (h : Inv p) :
    Inv (stepLogout cid p) := by
  obtain ⟨srv, ss⟩ := p
  obtain ⟨-, hreg⟩ := h
  refine ⟨ssOk_empty, ?_⟩
  show regOk (logout srv ss cid).1.registry
  unfold logout
  cases hn : normalize_conversation_id cid with
  | none => simpa [hn] using hreg
  | some c => simpa [hn] using regOk_erase hreg c

/-- Every state reachable through the public operations satisfies the
invariant. -/
theorem reachable_inv {p : Srv × SessionState} (h : Reachable p) : Inv p := by
  induction h with
  | init => exact ⟨ssOk_empty, regOk_nil⟩
  | auth users suffix cid _ ih => exact inv_stepAuth users suffix cid ih
  | download users cid _ ih => exact inv_stepDownload users cid ih
  | prepare users cid _ ih => exact inv_stepPrepare users cid ih
  | submit users accept persist dbOk cid _ ih => exact inv_stepSubmit users accept persist dbOk cid ih
  | status cid _ ih => exact inv_stepStatus cid ih
  | signOut cid _ ih => exact inv_stepLogout cid ih

/-! ### Concrete fixtures (the seeded `DEFAULT_MOCK_USERS` table and a demo run) -/

/-- The first seeded demo user. -/
def demoJan : Customer :=
  { customer_id := "u-1001", name := "Jan Novak", rodne_cislo_suffix := "1234"
    phone_number := "731527923", email := "jan.novak@example.com", current_plan_mbps := 100 }

/-- The second seeded demo user. -/
def demoPetra : Customer :=
  { customer_id := "u-1002", name := "Petra Svobodova", rodne_cislo_suffix := "5678"
    phone_number := "731527923", email := "petra.svobodova@example.com"
    current_plan_mbps := 100 }

/-- The seeded `mock_users` table. -/
def demoUsers : List Customer := [demoJan, demoPetra]

/-- The auth record `authenticate_user` stores for the first demo user. -/
def demoAuthRec : AuthState :=
  { authenticated := true, customer_id := "u-1001", name := "Jan Novak"
    rodne_cislo_suffix := "1234", phone_number := "731527923" }

/-- State after `authenticate_user(rodne_cislo_suffix="1234", conversation_id="conv-x")`. -/
def demoAuthed : Srv × SessionState := stepAuth demoUsers "1234" (some "conv-x") initState

/-- State after the subsequent `download_user_info(conversation_id="conv-x")`. -/
def demoDownloaded : Srv × SessionState := stepDownload demoUsers (some "conv-x") demoAuthed

/-- State after the subsequent `prepare_new_offer(conversation_id="conv-x")`. -/
def demoPrepared : Srv × SessionState := stepPrepare demoUsers (some "conv-x") demoDownloaded

/-- State after an accepted, non-persisted submission. -/
def demoSubmitted : Srv × SessionState :=
  stepSubmit demoUsers true false true (some "conv-x") demoPrepared

/-! ### Claims -/

/-- C2: for every protected-operation call, when after the guard's recovery
attempt the session still holds no auth record with `authenticated = true`,
the guard and all three protected operations fail with `Unauthorized`, whose
message names the required first call `authenticate_user`; otherwise the
guard hands back the stored auth record together with the normalized
conversation id. -/
theorem claim_C2 (users : List Customer) (srv : Srv) (ss : SessionState)
    (cid : Option String) (accept persist dbOk : Bool) :
    (authMissing (require_auth srv.registry ss cid).1.auth = true →
      (require_auth srv.registry ss cid).2 = .error .unauthorized ∧
      (download_user_info users srv ss cid).2.2 = .error .unauthorized ∧
      (prepare_new_offer users srv ss cid).2.2 = .error .unauthorized ∧
      (submit_offer_to_external_service users srv ss accept persist dbOk cid).2.2 =
        .error .unauthorized) ∧
    (∀ a, (require_auth srv.registry ss cid).1.auth = some a → a.authenticated = true →
      (require_auth srv.registry ss cid).2 = .ok (a, normalize_conversation_id cid)) ∧
    FlowError.message .unauthorized =
      "Unauthorized. First call authenticate_user(rodne_cislo_suffix=...) and keep returned conversation_id for next tool calls." := by
  rcases hra : require_auth srv.registry ss cid with ⟨ss1, r⟩
  refine ⟨?_, ?_, rfl⟩
  · intro hm
    replace hm : authMissing ss1.auth = true := hm
    cases r with
    | ok ar =>
      obtain ⟨auth, rcid⟩ := ar
      obtain ⟨-, ha, hat, -⟩ := require_auth_ok hra
      rw [ha] at hm
      simp [authMissing, hat] at hm
    | error e =>
      obtain ⟨rfl, -, -⟩ := require_auth_err hra
      exact ⟨rfl,
        by simp [download_user_info, hra],
        by simp [prepare_new_offer, hra],
        by simp [submit_offer_to_external_service, hra]⟩
  · intro a ha hat
    replace ha : ss1.auth = some a := ha
    cases r with
    | error e =>
      obtain ⟨-, -, hm⟩ := require_auth_err hra
      rw [ha] at hm
      simp [authMissing, hat] at hm
    | ok ar =>
      obtain ⟨auth, rcid⟩ := ar
      obtain ⟨-, ha', -, hn⟩ := require_auth_ok hra
      rw [ha] at ha'
      cases ha'
      rw [hn]

/-- C2 witness: on a fresh state with no registry entry, `download_user_info`
fails with `Unauthorized`. -/
theorem claim_C2_witness :
    (download_user_info demoUsers initState.1 SessionState.empty (some "conv-x")).2.2 =
      .error .unauthorized :=
  ((claim_C2 demoUsers initState.1 SessionState.empty (some "conv-x") true true true).1
    (by rfl)).2.1

/-- C8: after `logout(conversation_id=c)`, a `download_user_info(conversation_id=c)`
against a fresh, empty call-scoped session fails with `Unauthorized`: the
registry snapshot for `c` is removed, so recovery finds nothing. -/
theorem claim_C8 (users : List Customer) (srv : Srv) (ss : SessionState) (c : String) :
    (download_user_info users (logout srv ss (some c)).1 SessionState.empty (some c)).2.2 =
      .error .unauthorized := by
  have hra : require_auth (logout srv ss (some c)).1.registry SessionState.empty (some c) =
      (SessionState.empty, .error .unauthorized) := by
    cases hn : normalize_conversation_id (some c) with
    | none =>
      unfold require_auth authVerdict
      rw [hn]
      simp [SessionState.empty]
    | some c' =>
      have hne := normalize_conversation_id_ne_empty hn
      have hreg : (logout srv ss (some c)).1.registry = regErase srv.registry c' := by
        simp [logout, hn]
      unfold require_auth authVerdict
      rw [hn, hreg]
      simp [restore_conversation_snapshot, hne, regLookup_regErase_self, SessionState.empty,
        authMissing]
  simp [download_user_info, hra]

/-- C4: in every state reachable through the public operations, the stored
flow record satisfies the implication chain `user_info_downloaded ⇒
authenticated`, `offer_prepared ⇒ user_info_downloaded`, `submitted ⇒
offer_prepared`. -/
theorem claim_C4 {p : Srv × SessionState} (h : Reachable p) {f : FlowState}
    (hf : p.2.flow = some f) : f.chain := by
  obtain ⟨hss, -⟩ := reachable_inv h
  have hfo := hss.2.1
  rw [hf] at hfo
  exact (show f.authenticated = true ∧ f.chain from hfo).2

/-- C4 witness: the chain holds for the flow stored after the demo
authenticate-download run. -/
theorem claim_C4_witness :
    FlowState.chain
      { authenticated := true, user_info_downloaded := true
        offer_prepared := false, submitted := false } :=
  claim_C4
    (Reachable.download demoUsers (some "conv-x")
      (Reachable.auth demoUsers "1234" (some "conv-x") Reachable.init))
    (by rfl)

/-- C3 counterexample: a second `authenticate_user` call in the same
conversation resets `user_info_downloaded` from `true` back to `false`,
with no logout in between. -/
theorem claim_C3_counterexample :
    (stepDownload demoUsers (some "conv-x")
        (stepAuth demoUsers "1234" (some "conv-x") initState)).2.flow.map
      FlowState.user_info_downloaded = some true ∧
    (stepAuth demoUsers "1234" (some "conv-x")
        (stepDownload demoUsers (some "conv-x")
          (stepAuth demoUsers "1234" (some "conv-x") initState))).2.flow.map
      FlowState.user_info_downloaded = some false :=
  ⟨rfl, rfl⟩

/-- Pointwise order on the four flow gates: no observably true gate is lost. -/
def FlowState.le (f g : FlowState) : Prop :=
  (f.authenticated = true → g.authenticated = true) ∧
  (f.user_info_downloaded = true → g.user_info_downloaded = true) ∧
  (f.offer_prepared = true → g.offer_prepared = true) ∧
  (f.submitted = true → g.submitted = true)

instance (f g : FlowState) : Decidable (f.le g) := by
  unfold FlowState.le; infer_instance

/-- The flow gates a caller observes in a state (absent flow reads as the
all-false default, as `get_flow_status` reports it). -/
def obsFlow (p : Srv × SessionState) : FlowState := p.2.flow.getD default_flow_state

theorem default_flow_le (g : FlowState) : default_flow_state.le g := by
  refine ⟨?_, ?_, ?_, ?_⟩ <;> intro h <;> simp [default_flow_state] at h

theorem flow_le_refl (f : FlowState) : f.le f := ⟨id, id, id, id⟩

theorem flow_le_setDownloaded (f : FlowState) :
    f.le { f with user_info_downloaded := true } := ⟨id, fun _ => rfl, id, id⟩

theorem flow_le_setPrepared (f : FlowState) :
    f.le { f with offer_prepared := true } := ⟨id, id, fun _ => rfl, id⟩

theorem flow_le_setSubmitted (f : FlowState) :
    f.le { f with submitted := true } := ⟨id, id, id, fun _ => rfl⟩

/-- On a well-formed session the guard never rewrites a present flow record:
a present flow forces a present, authenticated auth record, so no recovery
is attempted. -/
theorem require_auth_flow {reg : Registry} {ss : SessionState} {f : FlowState}
    (hs : ssOk ss) (cid : Option String) (hf : ss.flow = some f) :
    (require_auth reg ss cid).1 = ss := by
  have hsome : ss.auth.isSome = true := hs.2.2 (by simp [hf])
  cases ha : ss.auth with
  | none => rw [ha] at hsome; cases hsome
  | some a =>
    have hat : a.authenticated = true := by
      have := hs.1; rw [ha] at this; exact this
    have hm : authMissing ss.auth = false := by rw [ha]; simp [authMissing, hat]
    rw [require_auth_fst, hm]
    simp

theorem mono_stepDownload {srv : Srv} {ss : SessionState} (hss : ssOk ss)
    (users : List Customer) (cid : Option String) :
    (obsFlow (srv, ss)).le (obsFlow (stepDownload users cid (srv, ss))) := by
  cases hf : ss.flow with
  | none =>
    have h0 : obsFlow (srv, ss) = default_flow_state := by simp [obsFlow, hf]
    rw [h0]; exact default_flow_le _
  | some f =>
    have h0 : obsFlow (srv, ss) = f := by simp [obsFlow, hf]
    have hkeep : (require_auth srv.registry ss cid).1 = ss := require_auth_flow hss cid hf
    rw [h0]
    rcases hra : require_auth srv.registry ss cid with ⟨ss1, r⟩
    have hs1 : ss1 = ss := by rw [hra] at hkeep; exact hkeep
    rw [hs1] at hra
    cases r with
    | error e =>
      have : obsFlow (stepDownload users cid (srv, ss)) = f := by
        simp [stepDownload, download_user_info, hra, obsFlow, hf]
      rw [this]; exact flow_le_refl f
    | ok ar =>
      obtain ⟨auth, rcid⟩ := ar
      cases hrc : require_customer users auth with
      | error e =>
        have : obsFlow (stepDownload users cid (srv, ss)) = f := by
          simp [stepDownload, download_user_info, hra, hrc, obsFlow, hf]
        rw [this]; exact flow_le_refl f
      | ok customer =>
        have : obsFlow (stepDownload users cid (srv, ss)) =
            { f with user_info_downloaded := true } := by
          simp [stepDownload, download_user_info, hra, hrc, obsFlow, hf]
        rw [this]; exact flow_le_setDownloaded f

theorem mono_stepPrepare {srv : Srv} {ss : SessionState} (hss : ssOk ss)
    (users : List Customer) (cid : Option String) :
    (obsFlow (srv, ss)).le (obsFlow (stepPrepare users cid (srv, ss))) := by
  cases hf : ss.flow with
  | none =>
    have h0 : obsFlow (srv, ss) = default_flow_state := by simp [obsFlow, hf]
    rw [h0]; exact default_flow_le _
  | some f =>
    have h0 : obsFlow (srv, ss) = f := by simp [obsFlow, hf]
    have hkeep : (require_auth srv.registry ss cid).1 = ss := require_auth_flow hss cid hf
    rw [h0]
    rcases hra : require_auth srv.registry ss cid with ⟨ss1, r⟩
    have hs1 : ss1 = ss := by rw [hra] at hkeep; exact hkeep
    rw [hs1] at hra
    cases r with
    | error e =>
      have : obsFlow (stepPrepare users cid (srv, ss)) = f := by
        simp [stepPrepare, prepare_new_offer, hra, obsFlow, hf]
      rw [this]; exact flow_le_refl f
    | ok ar =>
      obtain ⟨auth, rcid⟩ := ar
      cases hrc : require_customer users auth with
      | error e =>
        have : obsFlow (stepPrepare users cid (srv, ss)) = f := by
          simp [stepPrepare, prepare_new_offer, hra, hrc, obsFlow, hf]
        rw [this]; exact flow_le_refl f
      | ok customer =>
        cases hd : f.user_info_downloaded with
        | false =>
          have : obsFlow (stepPrepare users cid (srv, ss)) = f := by
            simp [stepPrepare, prepare_new_offer, hra, hrc, hd, obsFlow, hf]
          rw [this]; exact flow_le_refl f
        | true =>
          have : obsFlow (stepPrepare users cid (srv, ss)) =
              { f with offer_prepared := true } := by
            simp [stepPrepare, prepare_new_offer, hra, hrc, hd, obsFlow, hf]
          rw [this]; exact flow_le_setPrepared f

theorem mono_stepSubmit {srv : Srv} {ss : SessionState} (hss : ssOk ss)
    (users : List Customer) (accept persist dbOk : Bool) (cid : Option String) :
    (obsFlow (srv, ss)).le (obsFlow (stepSubmit users accept persist dbOk cid (srv, ss))) := by
  cases hf : ss.flow with
  | none =>
    have h0 : obsFlow (srv, ss) = default_flow_state := by simp [obsFlow, hf]
    rw [h0]; exact default_flow_le _
  | some f =>
    have h0 : obsFlow (srv, ss) = f := by simp [obsFlow, hf]
    have hkeep : (require_auth srv.registry ss cid).1 = ss := require_auth_flow hss cid hf
    rw [h0]
    rcases hra : require_auth srv.registry ss cid with ⟨ss1, r⟩
    have hs1 : ss1 = ss := by rw [hra] at hkeep; exact hkeep
    rw [hs1] at hra
    cases r with
    | error e =>
      have : obsFlow (stepSubmit users accept persist dbOk cid (srv, ss)) = f := by
        simp [stepSubmit, submit_offer_to_external_service, hra, obsFlow, hf]
      rw [this]; exact flow_le_refl f
    | ok ar =>
      obtain ⟨auth, rcid⟩ := ar
      cases hrc : require_customer users auth with
      | error e =>
        have : obsFlow (stepSubmit users accept persist dbOk cid (srv, ss)) = f := by
          simp [stepSubmit, submit_offer_to_external_service, hra, hrc, obsFlow, hf]
        rw [this]; exact flow_le_refl f
      | ok customer =>
        cases hp : f.offer_prepared with
        | false =>
          have : obsFlow (stepSubmit users accept persist dbOk cid (srv, ss)) = f := by
            simp [stepSubmit, submit_offer_to_external_service, hra, hrc, hp, obsFlow, hf]
          rw [this]; exact flow_le_refl f
        | true =>
          cases accept with
          | false =>
            have : obsFlow (stepSubmit users false persist dbOk cid (srv, ss)) = f := by
              simp [stepSubmit, submit_offer_to_external_service, hra, hrc, hp,
                obsFlow, hf]
            rw [this]; exact flow_le_refl f
          | true =>
            cases ho : ss.prepared_offer with
            | none =>
              have : obsFlow (stepSubmit users true persist dbOk cid (srv, ss)) = f := by
                simp [stepSubmit, submit_offer_to_external_service, hra, hrc, hp, ho,
                  obsFlow, hf]
              rw [this]; exact flow_le_refl f
            | some offer =>
              rcases hw : (if persist then
                  write_request_to_db srv.counter srv.ledger dbOk customer offer
                else
                  let r := mock_external_call srv.counter
                  (r.1, srv.ledger, some r.2)) with ⟨c1, l1, ext?⟩
              cases ext? with
              | none =>
                have : obsFlow (stepSubmit users true persist dbOk cid (srv, ss)) = f := by
                  simp [stepSubmit, submit_offer_to_external_service, hra, hrc, hp, ho,
                    hw, obsFlow, hf]
                rw [this]; exact flow_le_refl f
              | some ext =>
                have : obsFlow (stepSubmit users true persist dbOk cid (srv, ss)) =
                    { f with submitted := true } := by
                  simp [stepSubmit, submit_offer_to_external_service, hra, hrc, hp, ho,
                    hw, obsFlow, hf]
                rw [this]; exact flow_le_setSubmitted f

theorem mono_stepStatus {srv : Srv} {ss : SessionState} (hss : ssOk ss)
    (cid : Option String) :
    (obsFlow (srv, ss)).le (obsFlow (stepStatus cid (srv, ss))) := by
  cases hf : ss.flow with
  | none =>
    have h0 : obsFlow (srv, ss) = default_flow_state := by simp [obsFlow, hf]
    rw [h0]; exact default_flow_le _
  | some f =>
    have hsome : ss.auth.isSome = true := hss.2.2 (by simp [hf])
    cases ha : ss.auth with
    | none => rw [ha] at hsome; cases hsome
    | some a =>
      have hat : a.authenticated = true := by
        have := hss.1; rw [ha] at this; exact this
      have hm : authMissing ss.auth = false := by rw [ha]; simp [authMissing, hat]
      have hfix : (stepStatus cid (srv, ss)).2 = ss := by
        show (get_flow_status srv ss cid).1 = ss
        rw [get_flow_status_fst, hm]
        simp
      have : obsFlow (stepStatus cid (srv, ss)) = obsFlow (srv, ss) := by
        unfold obsFlow
        rw [show (stepStatus cid (srv, ss)).2 = ss from hfix]
      rw [this]; exact flow_le_refl _

/-- C3 amended: a flow gate, once `true`, stays `true` across all further
`download_user_info`, `prepare_new_offer`, `submit_offer_to_external_service`
and `get_flow_status` calls on a reachable state; `authenticate_user`,
however, re-initializes the flow (`authenticated` true, all later gates
`false`) even within the same conversation, and `logout` clears it — the
exception the original claim makes for logout alone also applies to
re-authentication. -/
theorem claim_C3_amended {p : Srv × SessionState} (h : Reachable p)
    (users : List Customer) (cid : Option String) (accept persist dbOk : Bool) :
    (obsFlow p).le (obsFlow (stepDownload users cid p)) ∧
    (obsFlow p).le (obsFlow (stepPrepare users cid p)) ∧
    (obsFlow p).le (obsFlow (stepSubmit users accept persist dbOk cid p)) ∧
    (obsFlow p).le (obsFlow (stepStatus cid p)) := by
  obtain ⟨srv, ss⟩ := p
  obtain ⟨hss, -⟩ := reachable_inv h
  exact ⟨mono_stepDownload hss users cid, mono_stepPrepare hss users cid,
    mono_stepSubmit hss users accept persist dbOk cid, mono_stepStatus hss cid⟩

/-- C3 amended witness: monotonicity of a `get_flow_status` call at the demo
prepared state. -/
theorem claim_C3_amended_witness :
    (obsFlow demoPrepared).le (obsFlow (stepStatus (some "conv-x") demoPrepared)) :=
  (claim_C3_amended
    (Reachable.prepare demoUsers (some "conv-x")
      (Reachable.download demoUsers (some "conv-x")
        (Reachable.auth demoUsers "1234" (some "conv-x") Reachable.init)))
    demoUsers (some "conv-x") true true true).2.2.2

/-! ### C9: get_flow_status lemmas -/

theorem get_flow_status_snd_norestore {srv : Srv} {ss : SessionState} {cid : Option String}
    (hc : (authMissing ss.auth && (normalize_conversation_id cid).isSome) = false) :
    (get_flow_status srv ss cid).2 =
      { authenticated := !authMissing ss.auth
        conversation_id := normalize_conversation_id cid
        flow := ss.flow.getD default_flow_state } := by
  unfold get_flow_status
  simp [hc]

theorem get_flow_status_snd_failrestore {srv : Srv} {ss : SessionState} {cid : Option String}
    (h : restore_conversation_snapshot srv.registry (normalize_conversation_id cid) ss =
      (ss, false)) :
    (get_flow_status srv ss cid).2 =
      { authenticated := !authMissing ss.auth
        conversation_id := normalize_conversation_id cid
        flow := ss.flow.getD default_flow_state } := by
  unfold get_flow_status
  by_cases hc : (authMissing ss.auth && (normalize_conversation_id cid).isSome) = true
  · simp [hc, h]
  · simp [hc]

theorem get_flow_status_snd_restored {srv : Srv} {ss s : SessionState} {cid : Option String}
    (hc : (authMissing ss.auth && (normalize_conversation_id cid).isSome) = true)
    (h : restore_conversation_snapshot srv.registry (normalize_conversation_id cid) ss =
      (s, true)) :
    (get_flow_status srv ss cid).2 =
      { authenticated := !authMissing s.auth
        conversation_id := normalize_conversation_id cid
        flow := s.flow.getD default_flow_state } := by
  unfold get_flow_status
  simp [hc, h]

/-- C9: `get_flow_status` never fails (it is a total function into a plain
status record) and never mutates the flow: running it again on the state it
leaves behind returns the very same session state and the very same status
record (same `flow`, same `authenticated`). -/
theorem claim_C9 (srv : Srv) (ss : SessionState) (cid : Option String) :
    (get_flow_status srv (get_flow_status srv ss cid).1 cid).1 =
      (get_flow_status srv ss cid).1 ∧
    (get_flow_status srv (get_flow_status srv ss cid).1 cid).2 =
      (get_flow_status srv ss cid).2 := by
  by_cases hc : (authMissing ss.auth && (normalize_conversation_id cid).isSome) = true
  · rcases restore_spec srv.registry (normalize_conversation_id cid) ss with hre |
      ⟨c, snap, hn, hcne, hl, hne, hre⟩
    · have h1 : (get_flow_status srv ss cid).1 = ss := by
        rw [get_flow_status_fst, if_pos hc, hre]
      rw [h1]
      exact ⟨h1, rfl⟩
    · have h1 : (get_flow_status srv ss cid).1 = restoreInto snap ss := by
        rw [get_flow_status_fst, if_pos hc, hre]
      have hre2 : restore_conversation_snapshot srv.registry (normalize_conversation_id cid)
          (restoreInto snap ss) = (restoreInto snap ss, true) := by
        rw [hn]
        simp [restore_conversation_snapshot, hcne, hl, hne, restoreInto_idem]
      have hsnd := get_flow_status_snd_restored hc hre
      by_cases hc2 : (authMissing (restoreInto snap ss).auth &&
          (normalize_conversation_id cid).isSome) = true
      · have h2 : (get_flow_status srv (restoreInto snap ss) cid).1 = restoreInto snap ss := by
          rw [get_flow_status_fst, if_pos hc2, hre2]
        have hsnd2 := get_flow_status_snd_restored hc2 hre2
        rw [h1, h2, hsnd, hsnd2]
        exact ⟨rfl, rfl⟩
      · have h2 : (get_flow_status srv (restoreInto snap ss) cid).1 = restoreInto snap ss := by
          rw [get_flow_status_fst, if_neg hc2]
        have hsnd2 := @get_flow_status_snd_norestore srv _ _ (eq_false_of_ne_true hc2)
        rw [h1, h2, hsnd, hsnd2]
        exact ⟨rfl, rfl⟩
  · have h1 : (get_flow_status srv ss cid).1 = ss := by
      rw [get_flow_status_fst, if_neg hc]
    rw [h1]
    exact ⟨h1, rfl⟩

/-- C5 counterexample: in a reachable state where the guard passes and
`offer_prepared` is true but a previous accepted submission already set
`submitted`, the declined call still returns `cancelled` and leaves
`flow.submitted` equal to `true`, not `false`. -/
theorem claim_C5_counterexample :
    demoSubmitted.2.flow.map FlowState.offer_prepared = some true ∧
    demoSubmitted.2.flow.map FlowState.submitted = some true ∧
    (submit_offer_to_external_service demoUsers demoSubmitted.1 demoSubmitted.2
        false true true (some "conv-x")).2.2 = .ok (.cancelled (some "conv-x")) ∧
    (submit_offer_to_external_service demoUsers demoSubmitted.1 demoSubmitted.2
        false true true (some "conv-x")).2.1.flow.map FlowState.submitted = some true :=
  ⟨rfl, rfl, rfl, rfl⟩

/-- C5 amended: when the guard passes and `offer_prepared` is true, declining
the offer returns `status = cancelled`, never invokes the ledger (server
state — registry, draw counter and ledger — is exactly unchanged) and leaves
the session exactly as the guard's recovery left it; in particular
`flow.submitted` keeps its prior value, so it is still `false` whenever it
was `false` before the call. -/
theorem claim_C5_amended (users : List Customer) (srv : Srv) (ss : SessionState)
    (persist dbOk : Bool) (cid : Option String) {ss1 : SessionState} {auth : AuthState}
    {rcid : Option String}
    (hra : require_auth srv.registry ss cid = (ss1, .ok (auth, rcid)))
    {customer : Customer} (hrc : require_customer users auth = .ok customer)
    (hp : (ss1.flow.getD authenticated_flow_state).offer_prepared = true) :
    submit_offer_to_external_service users srv ss false persist dbOk cid =
      (srv, ss1, .ok (.cancelled rcid)) := by
  simp [submit_offer_to_external_service, hra, hrc, hp]

/-- C5 amended witness: declining at the demo prepared state changes
nothing. -/
theorem claim_C5_amended_witness :
    submit_offer_to_external_service demoUsers demoPrepared.1 demoPrepared.2
        false true true (some "conv-x") =
      (demoPrepared.1, demoPrepared.2, .ok (.cancelled (some "conv-x"))) :=
  @claim_C5_amended demoUsers demoPrepared.1 demoPrepared.2 true true (some "conv-x")
    demoPrepared.2 demoAuthRec (some "conv-x")
    (by rfl) demoJan (by rfl) (by rfl)

/-- C6: when an accepted, persisted submission hits a failing ledger write,
the call surfaces `PersistenceError` and leaves the conversation state
exactly as the guard's recovery left it: the flow flags are unmodified
(`submitted` keeps its prior value), no `last_submission` entry is stored,
and the registry and ledger are untouched (only the uuid draws minted before
the insert are consumed), so the caller may retry the submission. -/
theorem claim_C6 (users : List Customer) (srv : Srv) (ss : SessionState) (cid : Option String)
    {ss1 : SessionState} {auth : AuthState} {rcid : Option String}
    (hra : require_auth srv.registry ss cid = (ss1, .ok (auth, rcid)))
    {customer : Customer} (hrc : require_customer users auth = .ok customer)
    (hp : (ss1.flow.getD authenticated_flow_state).offer_prepared = true)
    {offer : Offer} (hoff : ss1.prepared_offer = some offer) :
    submit_offer_to_external_service users srv ss true true false cid =
      ({ srv with counter := srv.counter + 2 }, ss1, .error .persistenceError) := by
  simp [submit_offer_to_external_service, hra, hrc, hp, hoff, write_request_to_db]

/-- C6 witness: a failing ledger write at the demo prepared state surfaces
the error and leaves flow, session and ledger untouched. -/
theorem claim_C6_witness :
    submit_offer_to_external_service demoUsers demoPrepared.1 demoPrepared.2
        true true false (some "conv-x") =
      ({ demoPrepared.1 with counter := demoPrepared.1.counter + 2 }, demoPrepared.2,
        .error .persistenceError) :=
  @claim_C6 demoUsers demoPrepared.1 demoPrepared.2 (some "conv-x")
    demoPrepared.2 demoAuthRec (some "conv-x")
    (by rfl) demoJan (by rfl) (by rfl)
    { offer_id := newOfferId 0, customer_id := "u-1001", current_plan_mbps := 100
      offered_plan_mbps := 250, price_delta_czk := 0
      description := "Upgrade internet speed from 100 Mbps to 250 Mbps."
      valid_until := "2026-12-31" }
    (by rfl)

/-! ### C7: offer uniqueness -/

theorem newOfferId_injective {m n : Nat} (h : newOfferId m = newOfferId n) : m = n := by
  have h2 := congrArg (fun s => s.data.length) h
  simp [newOfferId, uuidHex] at h2
  exact h2

/-- A successful `prepare_new_offer` mints its offer id from the current
draw counter, consumes exactly one draw, and stores the returned offer as
the session's only prepared offer. -/
theorem prepare_success {users : List Customer} {srv : Srv} {ss : SessionState}
    {cid : Option String} {o : OfferResult}
    (h : (prepare_new_offer users srv ss cid).2.2 = .ok o) :
    o.offer.offer_id = newOfferId srv.counter ∧
    (prepare_new_offer users srv ss cid).1.counter = srv.counter + 1 ∧
    (prepare_new_offer users srv ss cid).2.1.prepared_offer = some o.offer := by
  rcases hra : require_auth srv.registry ss cid with ⟨ss1, r⟩
  cases r with
  | error e => simp [prepare_new_offer, hra] at h
  | ok ar =>
    obtain ⟨auth, rcid⟩ := ar
    cases hrc : require_customer users auth with
    | error e => simp [prepare_new_offer, hra, hrc] at h
    | ok customer =>
      cases hd : (ss1.flow.getD authenticated_flow_state).user_info_downloaded with
      | false => simp [prepare_new_offer, hra, hrc, hd] at h
      | true =>
        simp only [prepare_new_offer, hra, hrc, hd, Bool.not_true, Bool.false_eq_true,
          if_false, Except.ok.injEq] at h
        refine ⟨?_, ?_, ?_⟩
        · rw [← h]
        · simp [prepare_new_offer, hra, hrc, hd]
        · simp [prepare_new_offer, hra, hrc, hd, ← h]

/-- C7: two successive successful `prepare_new_offer` calls in the same
conversation return offers with different `offer_id` values, and after the
second call the session stores the second offer — it replaces, not merges
with, the first, so it is the only offer a subsequent submission can use. -/
theorem claim_C7 (users : List Customer) (srv : Srv) (ss : SessionState) (cid : Option String)
    {o1 o2 : OfferResult}
    (h1 : (prepare_new_offer users srv ss cid).2.2 = .ok o1)
    (h2 : (prepare_new_offer users (prepare_new_offer users srv ss cid).1
        (prepare_new_offer users srv ss cid).2.1 cid).2.2 = .ok o2) :
    o1.offer.offer_id ≠ o2.offer.offer_id ∧
    (prepare_new_offer users (prepare_new_offer users srv ss cid).1
        (prepare_new_offer users srv ss cid).2.1 cid).2.1.prepared_offer = some o2.offer := by
  obtain ⟨hid1, hc1, -⟩ := prepare_success h1
  obtain ⟨hid2, -, hstore⟩ := prepare_success h2
  refine ⟨?_, hstore⟩
  rw [hid1, hid2, hc1]
  intro hbad
  exact Nat.lt_irrefl srv.counter (Nat.lt_of_lt_of_eq (Nat.lt_succ_self _)
    (newOfferId_injective hbad).symm)

/-- C7 witness: the two successive prepares after the demo download return
`offer-` ids drawn from counters 0 and 1, and the second offer is the stored
one. -/
theorem claim_C7_witness :
    (newOfferId 0 : String) ≠ newOfferId 1 ∧
    (prepare_new_offer demoUsers (prepare_new_offer demoUsers demoDownloaded.1
        demoDownloaded.2 (some "conv-x")).1
      (prepare_new_offer demoUsers demoDownloaded.1 demoDownloaded.2
        (some "conv-x")).2.1 (some "conv-x")).2.1.prepared_offer =
      some
        { offer_id := newOfferId 1, customer_id := "u-1001", current_plan_mbps := 100
          offered_plan_mbps := 250, price_delta_czk := 0
          description := "Upgrade internet speed from 100 Mbps to 250 Mbps."
          valid_until := "2026-12-31" } :=
  @claim_C7 demoUsers demoDownloaded.1 demoDownloaded.2 (some "conv-x")
    { offer :=
        { offer_id := newOfferId 0, customer_id := "u-1001", current_plan_mbps := 100
          offered_plan_mbps := 250, price_delta_czk := 0
          description := "Upgrade internet speed from 100 Mbps to 250 Mbps."
          valid_until := "2026-12-31" }
      conversation_id := some "conv-x" }
    { offer :=
        { offer_id := newOfferId 1, customer_id := "u-1001", current_plan_mbps := 100
          offered_plan_mbps := 250, price_delta_czk := 0
          description := "Upgrade internet speed from 100 Mbps to 250 Mbps."
          valid_until := "2026-12-31" }
      conversation_id := some "conv-x" }
    (by rfl) (by rfl)

/-! ### C1: recovery across a fresh call-scoped session -/

theorem empty_auth : SessionState.empty.auth = none := rfl

/-- Recovery for an empty call-scoped session: when the registry holds a
snapshot with an authenticated auth record under the normalized id, the
guard rehydrates it wholesale and passes. -/
theorem require_auth_fresh {reg : Registry} {c c' : String} {snap : SessionState}
    {a : AuthState} (hcne : c' ≠ "") (hl : regLookup reg c' = some snap)
    (ha : snap.auth = some a) (hat : a.authenticated = true)
    (hn : normalize_conversation_id (some c) = some c') :
    require_auth reg SessionState.empty (some c) = (snap, .ok (a, some c')) := by
  have hemp : snap.isEmpty = false := by simp [SessionState.isEmpty, ha]
  have hrest : restore_conversation_snapshot reg (some c') SessionState.empty =
      (snap, true) := by
    simp [restore_conversation_snapshot, hcne, hl, hemp, restoreInto_empty]
  have hm : authMissing SessionState.empty.auth = true := rfl
  simp only [require_auth, hn, hm, Option.isSome_some, Bool.and_self, if_true, hrest]
  unfold authVerdict
  rw [ha]
  simp [hat]

/-- The auth record `authenticate_user` stores for a resolved customer. -/
def authRecordFor (customer : Customer) : AuthState :=
  { authenticated := true, customer_id := customer.customer_id, name := customer.name
    rodne_cislo_suffix := customer.rodne_cislo_suffix, phone_number := customer.phone_number }

/-- C1: after a successful `authenticate_user` with conversation id `c`
(valid credential: the normalized suffix has 4-10 digits and resolves in the
user table), a `download_user_info` with the same `c` against a fresh, empty
call-scoped session succeeds and returns exactly the same customer profile
as the call would have returned had the session persisted. -/
theorem claim_C1 (users : List Customer) (srv : Srv) (ss : SessionState)
    (suffix c : String) {customer : Customer}
    (hlen : ((normalize_suffix suffix).length < 4 ||
      (normalize_suffix suffix).length > 10) = false)
    (hu : get_user_by_suffix users (normalize_suffix suffix) = some customer)
    (hid : customer.customer_id ≠ "")
    (hcnz : strStrip c ≠ "") :
    (authenticate_user users srv ss suffix (some c)).2.2 =
      .ok customer.customer_id customer.name customer.rodne_cislo_suffix (strStrip c) ∧
    (∃ info : UserInfoResult,
      (download_user_info users (authenticate_user users srv ss suffix (some c)).1
          SessionState.empty (some c)).2.2 = .ok info) ∧
    (download_user_info users (authenticate_user users srv ss suffix (some c)).1
        SessionState.empty (some c)).2.2 =
      (download_user_info users (authenticate_user users srv ss suffix (some c)).1
        (authenticate_user users srv ss suffix (some c)).2.1 (some c)).2.2 := by
  have hnorm : normalize_conversation_id (some c) = some (strStrip c) := by
    simp [normalize_conversation_id, hcnz]
  have hss1 : (authenticate_user users srv ss suffix (some c)).2.1 =
      { ss with auth := some (authRecordFor customer)
                flow := some authenticated_flow_state } := by
    simp [authenticate_user, hlen, hu, hnorm, authRecordFor]
  have hsrv1 : (authenticate_user users srv ss suffix (some c)).1.registry =
      regSet srv.registry (strStrip c)
        { ss with auth := some (authRecordFor customer)
                  flow := some authenticated_flow_state } := by
    simp [authenticate_user, hlen, hu, hnorm, save_conversation_snapshot, hcnz,
      authRecordFor]
  have hlook : regLookup (authenticate_user users srv ss suffix (some c)).1.registry
      (strStrip c) =
      some { ss with auth := some (authRecordFor customer)
                     flow := some authenticated_flow_state } := by
    rw [hsrv1]; exact regLookup_regSet_self _ _ _
  have hfresh : require_auth (authenticate_user users srv ss suffix (some c)).1.registry
      SessionState.empty (some c) =
      ({ ss with auth := some (authRecordFor customer)
                 flow := some authenticated_flow_state },
        .ok (authRecordFor customer, some (strStrip c))) :=
    require_auth_fresh hcnz hlook rfl rfl hnorm
  have hpers : require_auth (authenticate_user users srv ss suffix (some c)).1.registry
      { ss with auth := some (authRecordFor customer)
                flow := some authenticated_flow_state } (some c) =
      ({ ss with auth := some (authRecordFor customer)
                 flow := some authenticated_flow_state },
        .ok (authRecordFor customer, some (strStrip c))) := by
    rw [require_auth_pass _ (some c) rfl rfl, hnorm]
  have hmem : customer ∈ users := List.mem_of_find?_eq_some hu
  obtain ⟨u, hu'⟩ : ∃ u, get_user_by_customer_id users customer.customer_id = some u := by
    have hsome : (users.find? (fun x => x.customer_id = customer.customer_id)).isSome = true :=
      List.find?_isSome.mpr ⟨customer, hmem, by simp⟩
    obtain ⟨u, hu2⟩ := Option.isSome_iff_exists.mp hsome
    exact ⟨u, hu2⟩
  have hrc : require_customer users (authRecordFor customer) = .ok u := by
    simp [require_customer, authRecordFor, hid, hu']
  refine ⟨by simp [authenticate_user, hlen, hu, hnorm], ?_, ?_⟩
  · exact ⟨{ customer_id := u.customer_id, name := u.name, phone_number := u.phone_number
             email := u.email, current_plan_mbps := u.current_plan_mbps
             conversation_id := some (strStrip c) },
      by simp [download_user_info, hfresh, hrc]⟩
  · rw [hss1]
    simp [download_user_info, hfresh, hpers, hrc]

/-- C1 witness: the recovery property at the demo credential and
conversation id. -/
theorem claim_C1_witness :
    (authenticate_user demoUsers initState.1 initState.2 "1234" (some "conv-x")).2.2 =
      .ok "u-1001" "Jan Novak" "1234" (strStrip "conv-x") ∧
    (∃ info : UserInfoResult,
      (download_user_info demoUsers
          (authenticate_user demoUsers initState.1 initState.2 "1234" (some "conv-x")).1
          SessionState.empty (some "conv-x")).2.2 = .ok info) ∧
    (download_user_info demoUsers
        (authenticate_user demoUsers initState.1 initState.2 "1234" (some "conv-x")).1
        SessionState.empty (some "conv-x")).2.2 =
      (download_user_info demoUsers
        (authenticate_user demoUsers initState.1 initState.2 "1234" (some "conv-x")).1
        (authenticate_user demoUsers initState.1 initState.2 "1234" (some "conv-x")).2.1
        (some "conv-x")).2.2 :=
  @claim_C1 demoUsers initState.1 initState.2 "1234" "conv-x" demoJan
    (by rfl) (by rfl) (by decide) (by decide)

/-! ### C10: stale auth record after user deletion -/

/-- A session whose auth record points at a customer absent from the user
table (for example deleted through the admin surface after
authentication). -/
def demoStale : SessionState :=
  { SessionState.empty with auth := some demoAuthRec }

/-- C10: when the guard passes but the authenticated `customer_id` no longer
resolves in the user directory, every protected operation fails — with
`customerGone` (or `invalidAuthState` for an empty stored id), whose
messages tell the caller to run authentication again — leaving server state
untouched and returning no profile data from the stale auth record. -/
theorem claim_C10 (users : List Customer) (srv : Srv) (ss : SessionState)
    (cid : Option String) {ss1 : SessionState} {auth : AuthState} {rcid : Option String}
    (hra : require_auth srv.registry ss cid = (ss1, .ok (auth, rcid)))
    (hmiss : get_user_by_customer_id users auth.customer_id = none) :
    ∃ e, (e = FlowError.invalidAuthState ∨ e = FlowError.customerGone) ∧
      require_customer users auth = .error e ∧
      download_user_info users srv ss cid = (srv, ss1, .error e) ∧
      prepare_new_offer users srv ss cid = (srv, ss1, .error e) ∧
      (∀ accept persist dbOk,
        submit_offer_to_external_service users srv ss accept persist dbOk cid =
          (srv, ss1, .error e)) ∧
      FlowError.message .invalidAuthState = "Invalid auth state. Restart authentication." ∧
      FlowError.message .customerGone =
        "Authenticated customer no longer exists. Run authenticate_user again." := by
  by_cases hcid : auth.customer_id = ""
  · have hrc : require_customer users auth = .error .invalidAuthState := by
      simp [require_customer, hcid]
    exact ⟨.invalidAuthState, Or.inl rfl, hrc,
      by simp [download_user_info, hra, hrc],
      by simp [prepare_new_offer, hra, hrc],
      fun accept persist dbOk => by simp [submit_offer_to_external_service, hra, hrc],
      rfl, rfl⟩
  · have hrc : require_customer users auth = .error .customerGone := by
      simp [require_customer, hcid, hmiss]
    exact ⟨.customerGone, Or.inr rfl, hrc,
      by simp [download_user_info, hra, hrc],
      by simp [prepare_new_offer, hra, hrc],
      fun accept persist dbOk => by simp [submit_offer_to_external_service, hra, hrc],
      rfl, rfl⟩

/-- C10 witness: with the user table emptied after authentication, the
protected operations all fail with `customerGone`. -/
theorem claim_C10_witness :
    ∃ e, (e = FlowError.invalidAuthState ∨ e = FlowError.customerGone) ∧
      require_customer [] demoAuthRec = .error e ∧
      download_user_info [] initState.1 demoStale (some "conv-x") =
        (initState.1, demoStale, .error e) ∧
      prepare_new_offer [] initState.1 demoStale (some "conv-x") =
        (initState.1, demoStale, .error e) ∧
      (∀ accept persist dbOk,
        submit_offer_to_external_service [] initState.1 demoStale accept persist dbOk
          (some "conv-x") = (initState.1, demoStale, .error e)) ∧
      FlowError.message .invalidAuthState = "Invalid auth state. Restart authentication." ∧
      FlowError.message .customerGone =
        "Authenticated customer no longer exists. Run authenticate_user again." :=
  @claim_C10 [] initState.1 demoStale (some "conv-x") demoStale
    demoAuthRec (some "conv-x") (by rfl) (by rfl)

end McpServer
